import Mathlib

set_option maxRecDepth 8000

/-!
Verification of the BME280 driver (`bme280_class.py`): a shallow embedding of
the register model (the `set*` mutators acting on `ctrl_hum_val`,
`ctrl_meas_val`, `config_val`) and of the compensation engine (`readTemp`,
`readPress`, `readHum`, `readout`), together with theorems about them.

The Python source computes with unbounded Python integers for the register
model and with NumPy fixed-width integers (`np.int32` / `np.int64`, wrapping
two's-complement) for the compensation engine.  Shifts in both worlds are
arithmetic: `x << n` is `x * 2 ^ n` and `x >> n` is floor division by `2 ^ n`,
with the result wrapped to the operand's dtype for NumPy scalars — in
particular the `np.uint8` byte shifts of the raw ADC reconstruction wrap at
8 bits (see that section).
-/

/-! ## Python integer operator semantics -/

/-- Python two's-complement bitwise AND on unbounded integers.  This is the
same case split as `Int.land`, but the mixed-sign cases use
`m ^^^ (m &&& n)` in place of the equal `Nat.ldiff m n` so that the kernel
can evaluate it (see `pyAnd_eq_land`). -/
def pyAnd : Int → Int → Int
  | .ofNat m, .ofNat n => .ofNat (m &&& n)
  | .ofNat m, .negSucc n => .ofNat (m ^^^ (m &&& n))
  | .negSucc m, .ofNat n => .ofNat (n ^^^ (n &&& m))
  | .negSucc m, .negSucc n => .negSucc (m ||| n)

/-- Python two's-complement bitwise OR on unbounded integers; same case split
as `Int.lor` with `Nat.ldiff` replaced by its `^^^`/`&&&` form
(see `pyOr_eq_lor`). -/
def pyOr : Int → Int → Int
  | .ofNat m, .ofNat n => .ofNat (m ||| n)
  | .ofNat m, .negSucc n => .negSucc (n ^^^ (n &&& m))
  | .negSucc m, .ofNat n => .negSucc (m ^^^ (m &&& n))
  | .negSucc m, .negSucc n => .negSucc (m &&& n)

/-- Python bitwise complement: `~x = -x - 1`. -/
def pyNot (x : Int) : Int := -x - 1

/-- Python / NumPy left shift: `x << n = x * 2 ^ n` (exact, sign-preserving). -/
def shl (x : Int) (n : Nat) : Int := x * 2 ^ n

/-- Python / NumPy arithmetic right shift: floor division by `2 ^ n`
(rounds toward negative infinity, also on negative operands). -/
def sar (x : Int) (n : Nat) : Int := Int.fdiv x (2 ^ n)

theorem ldiff_eq_xor_and (m n : Nat) : Nat.ldiff m n = m ^^^ (m &&& n) :=
  Nat.eq_of_testBit_eq fun i => by
    rw [Nat.testBit_ldiff, Nat.testBit_xor, Nat.testBit_and]
    cases m.testBit i <;> cases n.testBit i <;> rfl

theorem pyAnd_eq_land (a b : Int) : pyAnd a b = Int.land a b := by
  cases a <;> cases b <;> simp [pyAnd, Int.land, ldiff_eq_xor_and]

theorem pyOr_eq_lor (a b : Int) : pyOr a b = Int.lor a b := by
  cases a <;> cases b <;> simp [pyOr, Int.lor, ldiff_eq_xor_and]

/-! ## Register model

The three writable control registers held by the `BME280` object
(`ctrl_hum_val`, `ctrl_meas_val`, `config_val`, all initialised to `0x00`),
and one mutator per logical setting, each translated line by line from
`bme280_class.py`.  The enumerations mirror the `Enum` classes of the source;
the `else: raise NameError(...)` branches of the source are unreachable for
values of the closed enumerations, so the mutators are total functions. -/

inductive BME280OS
  | SKIP | OS1 | OS2 | OS4 | OS8 | OS16
  deriving DecidableEq, Fintype

inductive BME280Mode
  | SLEEP | FORCED | NORMAL
  deriving DecidableEq, Fintype

inductive BME280Standby
  | STANDBY0_5 | STANDBY62_5 | STANDBY125 | STANDBY250
  | STANDBY500 | STANDBY1000 | STANDBY10 | STANDBY20
  deriving DecidableEq, Fintype

inductive BME280Filter
  | COEFFOFF | COEFF2 | COEFF4 | COEFF8 | COEFF16
  deriving DecidableEq, Fintype

structure RegState where
  ctrl_hum_val : Int
  ctrl_meas_val : Int
  config_val : Int
  deriving DecidableEq

/-- Effect of `BME280.setMode` (lines 128-138) on `ctrl_meas_val`:
`&= ~0 << 2`, then for FORCED `|= 0b01`, for NORMAL `|= 0b11`. -/
def setModeVal : BME280Mode → Int → Int
  | .SLEEP, x => pyAnd x (shl (pyNot 0) 2)
  | .FORCED, x => pyOr (pyAnd x (shl (pyNot 0) 2)) 0b01
  | .NORMAL, x => pyOr (pyAnd x (shl (pyNot 0) 2)) 0b11

def setMode (mode : BME280Mode) (s : RegState) : RegState :=
  { s with ctrl_meas_val := setModeVal mode s.ctrl_meas_val }

/-- Effect of `BME280.setOsrsHum` (lines 140-160) on `ctrl_hum_val`:
`&= ~0 << 3`, then `|=` the 3-bit oversampling code. -/
def setOsrsHumVal : BME280OS → Int → Int
  | .SKIP, x => pyOr (pyAnd x (shl (pyNot 0) 3)) 0b000
  | .OS1, x => pyOr (pyAnd x (shl (pyNot 0) 3)) 0b001
  | .OS2, x => pyOr (pyAnd x (shl (pyNot 0) 3)) 0b010
  | .OS4, x => pyOr (pyAnd x (shl (pyNot 0) 3)) 0b011
  | .OS8, x => pyOr (pyAnd x (shl (pyNot 0) 3)) 0b100
  | .OS16, x => pyOr (pyAnd x (shl (pyNot 0) 3)) 0b101

def setOsrsHum (osrs : BME280OS) (s : RegState) : RegState :=
  { s with ctrl_hum_val := setOsrsHumVal osrs s.ctrl_hum_val }

/-- Effect of `BME280.setOsrsTemp` (lines 162-182) on `ctrl_meas_val`:
`&= (~0 << 8) | 0b00011111`, then `|=` the literal of the chosen branch
(`0b00011111`, `0b00111111`, `0b01011111`, `0b01111111`, `0b10011111`,
`0b10111111`). -/
def setOsrsTempVal : BME280OS → Int → Int
  | .SKIP, x => pyOr (pyAnd x (pyOr (shl (pyNot 0) 8) 0b00011111)) 0b00011111
  | .OS1, x => pyOr (pyAnd x (pyOr (shl (pyNot 0) 8) 0b00011111)) 0b00111111
  | .OS2, x => pyOr (pyAnd x (pyOr (shl (pyNot 0) 8) 0b00011111)) 0b01011111
  | .OS4, x => pyOr (pyAnd x (pyOr (shl (pyNot 0) 8) 0b00011111)) 0b01111111
  | .OS8, x => pyOr (pyAnd x (pyOr (shl (pyNot 0) 8) 0b00011111)) 0b10011111
  | .OS16, x => pyOr (pyAnd x (pyOr (shl (pyNot 0) 8) 0b00011111)) 0b10111111

def setOsrsTemp (osrs : BME280OS) (s : RegState) : RegState :=
  { s with ctrl_meas_val := setOsrsTempVal osrs s.ctrl_meas_val }

/-- Effect of `BME280.setOsrsPress` (lines 184-204) on `ctrl_meas_val`:
`&= (~0 << 5) | 0b11100011`, then `|=` the literal of the chosen branch
(`0b11100011`, `0b11100111`, `0b11101011`, `0b11101111`, `0b11110011`,
`0b11110111`). -/
def setOsrsPressVal : BME280OS → Int → Int
  | .SKIP, x => pyOr (pyAnd x (pyOr (shl (pyNot 0) 5) 0b11100011)) 0b11100011
  | .OS1, x => pyOr (pyAnd x (pyOr (shl (pyNot 0) 5) 0b11100011)) 0b11100111
  | .OS2, x => pyOr (pyAnd x (pyOr (shl (pyNot 0) 5) 0b11100011)) 0b11101011
  | .OS4, x => pyOr (pyAnd x (pyOr (shl (pyNot 0) 5) 0b11100011)) 0b11101111
  | .OS8, x => pyOr (pyAnd x (pyOr (shl (pyNot 0) 5) 0b11100011)) 0b11110011
  | .OS16, x => pyOr (pyAnd x (pyOr (shl (pyNot 0) 5) 0b11100011)) 0b11110111

def setOsrsPress (osrs : BME280OS) (s : RegState) : RegState :=
  { s with ctrl_meas_val := setOsrsPressVal osrs s.ctrl_meas_val }

/-- Effect of `BME280.setRate` (lines 206-224) on `config_val`: every branch
executes only `config_val &= (~0 << 8) | 0b00011111`; no branch ORs in a
standby code. -/
def setRateVal : BME280Standby → Int → Int
  | .STANDBY0_5, x => pyAnd x (pyOr (shl (pyNot 0) 8) 0b00011111)
  | .STANDBY62_5, x => pyAnd x (pyOr (shl (pyNot 0) 8) 0b00011111)
  | .STANDBY125, x => pyAnd x (pyOr (shl (pyNot 0) 8) 0b00011111)
  | .STANDBY250, x => pyAnd x (pyOr (shl (pyNot 0) 8) 0b00011111)
  | .STANDBY500, x => pyAnd x (pyOr (shl (pyNot 0) 8) 0b00011111)
  | .STANDBY1000, x => pyAnd x (pyOr (shl (pyNot 0) 8) 0b00011111)
  | .STANDBY10, x => pyAnd x (pyOr (shl (pyNot 0) 8) 0b00011111)
  | .STANDBY20, x => pyAnd x (pyOr (shl (pyNot 0) 8) 0b00011111)

def setRate (rate : BME280Standby) (s : RegState) : RegState :=
  { s with config_val := setRateVal rate s.config_val }

/-- Effect of `BME280.setFilterCoeff` (lines 226-238) on `config_val`: each
branch executes only an AND with `(~0 << 5) | <literal>`; no branch ORs a
filter code in. -/
def setFilterCoeffVal : BME280Filter → Int → Int
  | .COEFFOFF, x => pyAnd x (pyOr (shl (pyNot 0) 5) 0b11100011)
  | .COEFF2, x => pyAnd x (pyOr (shl (pyNot 0) 5) 0b11100111)
  | .COEFF4, x => pyAnd x (pyOr (shl (pyNot 0) 5) 0b11101011)
  | .COEFF8, x => pyAnd x (pyOr (shl (pyNot 0) 5) 0b11101111)
  | .COEFF16, x => pyAnd x (pyOr (shl (pyNot 0) 5) 0b11110011)

def setFilterCoeff (coeff : BME280Filter) (s : RegState) : RegState :=
  { s with config_val := setFilterCoeffVal coeff s.config_val }

/-! ## Claims C1 and C2: the mutators versus the chip code tables -/

/-- C1: the claim fails on the code.  `setOsrsTemp` and `setOsrsPress` OR the
low bits of their clear-mask into `ctrl_meas_val`, overwriting the fields that
do not belong to them.  Evaluated at concrete failing inputs: from the all-zero
state, `setOsrsTemp SKIP` leaves `ctrl_meas_val = 0b00011111` (osrs_p and mode
forced to all ones) and `setOsrsPress SKIP` leaves `0b11100011` (osrs_t and
mode forced to all ones); and setting field A (`setOsrsPress OS1`, osrs_p bits
4..2 become 001) and then field B (`setOsrsTemp OS1`) moves A's bits to 111. -/
theorem setOsrsTemp_clobbers_other_fields :
    (setOsrsTemp BME280OS.SKIP ⟨0, 0, 0⟩).ctrl_meas_val = 0b00011111 ∧
    (setOsrsPress BME280OS.SKIP ⟨0, 0, 0⟩).ctrl_meas_val = 0b11100011 ∧
    pyAnd (setOsrsPress BME280OS.OS1 ⟨0, 0, 0⟩).ctrl_meas_val 0b00011100 = 0b00000100 ∧
    pyAnd (setOsrsTemp BME280OS.OS1 (setOsrsPress BME280OS.OS1 ⟨0, 0, 0⟩)).ctrl_meas_val
      0b00011100 = 0b00011100 := by
  decide

/-- C2: the claim fails on the code.  `setRate` clears the standby field t_sb
(bits 7..5 of `config_val`) but never ORs in the 3-bit duration code, so all
eight variants collapse to code 000 (the source's own comment table, lines
74-82, assigns 001 to 62.5 ms up to 111 for 20 ms); `setFilterCoeff` ANDs the
filter field with its code instead of storing it, so from a zero byte every
coefficient also yields 000 (comment table lines 83-88 assigns 001 to
coefficient 2). -/
theorem setRate_setFilterCoeff_wrong_codes :
    (setRate BME280Standby.STANDBY62_5 ⟨0, 0, 0⟩).config_val = 0 ∧
    (∀ r r' : BME280Standby, setRate r ⟨0, 0, 0b10111111⟩ = setRate r' ⟨0, 0, 0b10111111⟩) ∧
    (setFilterCoeff BME280Filter.COEFF2 ⟨0, 0, 0⟩).config_val = 0 := by
  decide

/-! ## Claim C9: idempotence of the mutators -/

theorem setModeVal_idem : ∀ (m : BME280Mode) (v : Fin 256),
    setModeVal m (setModeVal m ((v : Nat) : Int)) = setModeVal m ((v : Nat) : Int) := by
  decide

theorem setOsrsHumVal_idem : ∀ (o : BME280OS) (v : Fin 256),
    setOsrsHumVal o (setOsrsHumVal o ((v : Nat) : Int)) = setOsrsHumVal o ((v : Nat) : Int) := by
  decide

theorem setOsrsTempVal_idem : ∀ (o : BME280OS) (v : Fin 256),
    setOsrsTempVal o (setOsrsTempVal o ((v : Nat) : Int)) = setOsrsTempVal o ((v : Nat) : Int) := by
  decide

theorem setOsrsPressVal_idem : ∀ (o : BME280OS) (v : Fin 256),
    setOsrsPressVal o (setOsrsPressVal o ((v : Nat) : Int)) =
      setOsrsPressVal o ((v : Nat) : Int) := by
  decide

theorem setRateVal_idem : ∀ (r : BME280Standby) (v : Fin 256),
    setRateVal r (setRateVal r ((v : Nat) : Int)) = setRateVal r ((v : Nat) : Int) := by
  decide

theorem setFilterCoeffVal_idem : ∀ (c : BME280Filter) (v : Fin 256),
    setFilterCoeffVal c (setFilterCoeffVal c ((v : Nat) : Int)) =
      setFilterCoeffVal c ((v : Nat) : Int) := by
  decide

/-- C9: every register mutator is idempotent.  For every enumerated variant
and every starting register-byte state (each of the three bytes ranging over
0..255), applying the same mutator twice with the same variant leaves the
three register bytes identical to applying it once. -/
theorem registerMutators_idempotent (hb mb cb : Fin 256) :
    (∀ m : BME280Mode,
      setMode m (setMode m ⟨(hb : Nat), (mb : Nat), (cb : Nat)⟩) =
        setMode m ⟨(hb : Nat), (mb : Nat), (cb : Nat)⟩) ∧
    (∀ o : BME280OS,
      setOsrsHum o (setOsrsHum o ⟨(hb : Nat), (mb : Nat), (cb : Nat)⟩) =
        setOsrsHum o ⟨(hb : Nat), (mb : Nat), (cb : Nat)⟩) ∧
    (∀ o : BME280OS,
      setOsrsTemp o (setOsrsTemp o ⟨(hb : Nat), (mb : Nat), (cb : Nat)⟩) =
        setOsrsTemp o ⟨(hb : Nat), (mb : Nat), (cb : Nat)⟩) ∧
    (∀ o : BME280OS,
      setOsrsPress o (setOsrsPress o ⟨(hb : Nat), (mb : Nat), (cb : Nat)⟩) =
        setOsrsPress o ⟨(hb : Nat), (mb : Nat), (cb : Nat)⟩) ∧
    (∀ r : BME280Standby,
      setRate r (setRate r ⟨(hb : Nat), (mb : Nat), (cb : Nat)⟩) =
        setRate r ⟨(hb : Nat), (mb : Nat), (cb : Nat)⟩) ∧
    (∀ c : BME280Filter,
      setFilterCoeff c (setFilterCoeff c ⟨(hb : Nat), (mb : Nat), (cb : Nat)⟩) =
        setFilterCoeff c ⟨(hb : Nat), (mb : Nat), (cb : Nat)⟩) := by
  refine ⟨fun m => ?_, fun o => ?_, fun o => ?_, fun o => ?_, fun r => ?_, fun c => ?_⟩ <;>
    simp [setMode, setOsrsHum, setOsrsTemp, setOsrsPress, setRate, setFilterCoeff,
      setModeVal_idem, setOsrsHumVal_idem, setOsrsTempVal_idem, setOsrsPressVal_idem,
      setRateVal_idem, setFilterCoeffVal_idem]

/-! ## NumPy fixed-width integer casts

NumPy scalar arithmetic on `np.int32` / `np.int64` wraps modulo the width
(two's complement); the cast constructors `np.int32(...)`, `np.int64(...)`,
`np.uint8(...)`, `np.int16(...)`, ... reduce modulo the width as well. -/

/-- Wrap to a signed 32-bit value (np.int32 semantics). -/
def w32 (x : Int) : Int := (x + 2147483648) % 4294967296 - 2147483648

/-- Wrap to a signed 64-bit value (np.int64 semantics). -/
def w64 (x : Int) : Int := (x + 9223372036854775808) % 18446744073709551616 - 9223372036854775808

/-- Wrap to an unsigned 8-bit value (np.uint8 semantics), as an `Int`. -/
def u8 (x : Int) : Int := x % 256

/-- Wrap to an unsigned 8-bit value, as a `Nat` (for the raw-byte packing). -/
def u8nat (x : Int) : Nat := (x % 256).toNat

/-- Wrap to an unsigned 16-bit value (np.uint16 semantics). -/
def u16 (x : Int) : Int := x % 65536

/-- Wrap to an unsigned 32-bit value (np.uint32 semantics). -/
def u32 (x : Int) : Int := x % 4294967296

/-- Wrap to a signed 8-bit value (np.int8 semantics). -/
def s8 (x : Int) : Int := (x + 128) % 256 - 128

/-- Wrap to a signed 16-bit value (np.int16 semantics). -/
def s16 (x : Int) : Int := (x + 32768) % 65536 - 32768

/-! ## Raw ADC reconstruction

`readTemp` line 257 and `readPress` line 287 rebuild the raw value from the
three bytes `msb`, `lsb`, `xlsb`, each first cast through `np.uint8`
(lines 253-255 / 283-285):
`np.int32(((msb & 255) << 12) | ((lsb & 255) << 4) | ((xlsb & 0b11110000) >> 4))`;
`readHum` line 320 rebuilds `np.int32((msb << 8) | lsb)` from the two bytes of
lines 317-318.  Because the bytes are `np.uint8` scalars and a Python-int
shift count keeps the uint8 dtype, NumPy evaluates each shift in uint8:
`(msb & 255) << 12` and `msb << 8` overshift to 0, and `(lsb & 255) << 4`
wraps to `(lsb & 0xF) << 4`; each shift result is therefore reduced mod 256
here, and the reconstructed values in fact lie in [0, 255].  All operands are
non-negative, so the packing is computed on `Nat`. -/

def rawValue20 (b0 b1 b2 : Int) : Int :=
  w32 ((((((u8nat b0 &&& 255) <<< 12) % 256) |||
    (((u8nat b1 &&& 255) <<< 4) % 256) ||| ((u8nat b2 &&& 0b11110000) >>> 4) : Nat)))

def rawValue16 (b0 b1 : Int) : Int :=
  w32 ((((u8nat b0 <<< 8) % 256) ||| u8nat b1 : Nat))

theorem w32_eq_of_bounds {x : Int} (h0 : 0 ≤ x) (h1 : x < 2147483648) : w32 x = x := by
  unfold w32
  omega

/-- C10: for every raw readout byte triple (resp. pair) the reconstructed raw
ADC value is non-negative and bounded: within the claimed 20-bit range for
temperature and pressure (both use `rawValue20`) and 16-bit range for humidity
(`rawValue16`); in particular the `np.int32`-typed value is never negative.
The bytes are quantified over all of `Int` because the source passes them
through `np.uint8` first; the uint8-wrapped shifts in fact confine the values
to [0, 255], well inside the claimed bounds. -/
theorem rawValues_bounded (b0 b1 b2 c0 c1 : Int) :
    0 ≤ rawValue20 b0 b1 b2 ∧ rawValue20 b0 b1 b2 ≤ 2 ^ 20 - 1 ∧
    0 ≤ rawValue16 c0 c1 ∧ rawValue16 c0 c1 ≤ 2 ^ 16 - 1 := by
  have hb : ∀ y : Int, u8nat y < 256 := by
    intro y
    unfold u8nat
    omega
  have h20 : (((u8nat b0 &&& 255) <<< 12) % 256) |||
      (((u8nat b1 &&& 255) <<< 4) % 256) ||| ((u8nat b2 &&& 0b11110000) >>> 4) < 2 ^ 8 := by
    have p0 : ((u8nat b0 &&& 255) <<< 12) % 256 < 2 ^ 8 := by
      have := Nat.mod_lt ((u8nat b0 &&& 255) <<< 12) (show 0 < 256 by norm_num)
      omega
    have p1 : ((u8nat b1 &&& 255) <<< 4) % 256 < 2 ^ 8 := by
      have := Nat.mod_lt ((u8nat b1 &&& 255) <<< 4) (show 0 < 256 by norm_num)
      omega
    have p2 : (u8nat b2 &&& 0b11110000) >>> 4 < 2 ^ 8 := by
      rw [Nat.shiftRight_eq_div_pow]
      have : u8nat b2 &&& 0b11110000 ≤ 240 := Nat.and_le_right
      omega
    exact Nat.or_lt_two_pow (Nat.or_lt_two_pow p0 p1) p2
  have h16 : ((u8nat c0 <<< 8) % 256) ||| u8nat c1 < 2 ^ 8 := by
    have p0 : (u8nat c0 <<< 8) % 256 < 2 ^ 8 := by
      have := Nat.mod_lt (u8nat c0 <<< 8) (show 0 < 256 by norm_num)
      omega
    have p1 : u8nat c1 < 2 ^ 8 := by
      have := hb c1
      omega
    exact Nat.or_lt_two_pow p0 p1
  have k20 : (((((u8nat b0 &&& 255) <<< 12) % 256) |||
      (((u8nat b1 &&& 255) <<< 4) % 256) |||
      ((u8nat b2 &&& 0b11110000) >>> 4) : Nat) : Int) < 2 ^ 8 := by
    exact_mod_cast h20
  have k16 : ((((u8nat c0 <<< 8) % 256) ||| u8nat c1 : Nat) : Int) < 2 ^ 8 := by
    exact_mod_cast h16
  unfold rawValue20 rawValue16
  rw [w32_eq_of_bounds (Int.natCast_nonneg _) (by omega),
    w32_eq_of_bounds (Int.natCast_nonneg _) (by omega)]
  exact ⟨Int.natCast_nonneg _, by omega, Int.natCast_nonneg _, by omega⟩

/-! ## Temperature compensation (readTemp, lines 264-267)

Every arithmetic operation runs on `np.int32` scalars and therefore wraps at
32 bits; `>>` is an arithmetic shift.  The function returns the pair
`(T, t_fine)`. -/

def computeTemperature (adc_T dig_T1 dig_T2 dig_T3 : Int) : Int × Int :=
  let var1 := sar (w32 (w32 (sar adc_T 3 - w32 (shl dig_T1 1)) * dig_T2)) 11
  let d := w32 (sar adc_T 4 - dig_T1)
  let var2 := sar (w32 (sar (w32 (d * d)) 12 * dig_T3)) 14
  let t_fine := w32 (var1 + var2)
  (sar (w32 (w32 (t_fine * 5) + 128)) 8, t_fine)

/-- C4: the canonical datasheet vector.  With T1 = 27504, T2 = 26435,
T3 = -1000 and raw temperature 519888 the compensation returns
T = 2508 (25.08 degrees Celsius) and t_fine = 128422.  The vector passes only
with floor-semantics right shifts: the intermediate `-6076000 >> 14` must give
-371, not -370. -/
theorem computeTemperature_datasheet_vector :
    computeTemperature 519888 27504 26435 (-1000) = (2508, 128422) ∧
    sar (-6076000) 14 = -371 := by
  constructor
  · decide
  · decide

/-! ## Humidity compensation (readHum, lines 321-326)

All arithmetic on `np.int32` scalars (wrapping); the coefficients are wrapped
through `np.int32(...)` where the source writes the cast. -/

/-- Value of `v_x1_u32r` after lines 321-323 of `readHum`, before the clamp:
line 321 sets `v = np.int32(t_fine - 76800)`, line 322 multiplies the raw
term by the coefficient polynomial, line 323 subtracts the square correction. -/
def humIntermediate (adc_H t_fine dig_H1 dig_H2 dig_H3 dig_H4 dig_H5 dig_H6 : Int) : Int :=
  let v := w32 (t_fine - 76800)
  let termA := w32 (shl adc_H 14)
  let termB := w32 (shl (w32 dig_H4) 20)
  let termC := w32 (w32 dig_H5 * v)
  let a := sar (w32 (w32 (w32 (termA - termB) - termC) + 16384)) 15
  let t1 := sar (w32 (v * w32 dig_H6)) 10
  let t2 := w32 (sar (w32 (v * w32 dig_H3)) 11 + 32768)
  let t3 := sar (w32 (t1 * t2)) 10
  let t4 := w32 (t3 + 2097152)
  let t5 := w32 (w32 (t4 * w32 dig_H2) + 8192)
  let v1 := w32 (a * sar t5 14)
  let c := sar (w32 (sar (w32 (sar v1 15 * sar v1 15)) 7 * w32 dig_H1)) 4
  w32 (v1 - c)

/-- Lines 324-326 of `readHum`: clamp `v_x1_u32r` to `[0, 419430400]`, shift
right by 12, and return it as `np.uint32`. -/
def humClampShift (v : Int) : Int :=
  u32 (sar (if 419430400 < (if v < 0 then 0 else v) then 419430400
    else (if v < 0 then 0 else v)) 12)

/-- Humidity compensation of `readHum` (lines 321-326): the clamped and
shifted value of the intermediate. -/
def computeHumidity (adc_H t_fine dig_H1 dig_H2 dig_H3 dig_H4 dig_H5 dig_H6 : Int) : Int :=
  humClampShift (humIntermediate adc_H t_fine dig_H1 dig_H2 dig_H3 dig_H4 dig_H5 dig_H6)

theorem humClampShift_bounds (v : Int) :
    0 ≤ humClampShift v ∧ humClampShift v ≤ 102400 := by
  have key : ∀ x : Int, 0 ≤ x → x ≤ 419430400 →
      0 ≤ u32 (sar x 12) ∧ u32 (sar x 12) ≤ 102400 := by
    intro x h0 h1
    unfold u32 sar
    rw [Int.fdiv_eq_ediv _ (by norm_num : (0 : Int) ≤ 2 ^ 12)]
    have e : (2 : Int) ^ 12 = 4096 := by norm_num
    rw [e]
    omega
  unfold humClampShift
  apply key <;> split_ifs <;> omega

/-- C5: for every raw humidity value, fine value and coefficient set
(quantified over all of `Int`, which covers any adversarial input), the
humidity returned by the compensation lies in `[0, 102400]` (0 to 100 %RH in
Q10): lines 324-325 clamp the intermediate to `[0, 419430400]` before the
final right shift by 12, and `419430400 = 102400 * 2 ^ 12`. -/
theorem computeHumidity_bounded (adc_H t_fine H1 H2 H3 H4 H5 H6 : Int) :
    0 ≤ computeHumidity adc_H t_fine H1 H2 H3 H4 H5 H6 ∧
    computeHumidity adc_H t_fine H1 H2 H3 H4 H5 H6 ≤ 102400 :=
  humClampShift_bounds _

/-! ## Pressure compensation (readPress, lines 288-303)

All arithmetic on `np.int64` scalars (wrapping at 64 bits) up to line 298.
Line 299 then computes `(((self.P << 31) - var2) * 3125) / var1` with true
division `/` (not floor division `//`): NumPy true division of two `np.int64`
scalars produces a `np.float64`.  The next statement, line 300, evaluates
`self.P >> 13` on that float and raises `TypeError` (`np.float64` has no
right-shift), so whenever `var1` is non-zero `readPress` raises instead of
returning; this aborted branch is modelled as `none`. -/

/-- Denominator term `var1` of `readPress` after its transform
(lines 288, 292-293). -/
def pressVar1 (t_fine dig_P1 dig_P2 dig_P3 : Int) : Int :=
  let v := w64 (t_fine - 128000)
  let a := w64 (sar (w64 (w64 (v * v) * dig_P3)) 8 + w64 (shl (w64 (v * dig_P2)) 12))
  w64 (sar (w64 (w64 (shl 1 47 + a) * dig_P1)) 33)

/-- Term `var2` of `readPress` (lines 288-291). -/
def pressVar2 (t_fine dig_P4 dig_P5 dig_P6 : Int) : Int :=
  let v := w64 (t_fine - 128000)
  let a := w64 (w64 (v * v) * dig_P6)
  let b := w64 (a + w64 (shl (w64 (v * dig_P5)) 17))
  w64 (b + w64 (shl dig_P4 35))

/-- Numerator of the division on line 299 of `readPress`:
`((np.int64(1048576 - adc_P) << 31) - var2) * 3125`. -/
def pressNumerator (adc_P t_fine dig_P4 dig_P5 dig_P6 : Int) : Int :=
  let p0 := w32 (1048576 - adc_P)
  w64 (w64 (w64 (shl p0 31) - pressVar2 t_fine dig_P4 dig_P5 dig_P6) * 3125)

/-- Pressure compensation of `readPress` (lines 288-303): if the transformed
`var1` is zero the source sets `self.P = 0` and returns (lines 294-296);
otherwise line 299's true division produces a `np.float64` and line 300
raises `TypeError`, modelled as `none`. -/
def computePressure (adc_P t_fine dig_P1 dig_P2 dig_P3 dig_P4 dig_P5 dig_P6
    dig_P7 dig_P8 dig_P9 : Int) : Option Int :=
  if pressVar1 t_fine dig_P1 dig_P2 dig_P3 = 0 then some 0 else none

/-- C6: whenever the transformed denominator `var1` evaluates to zero, the
pressure computation returns pressure 0 without raising: the guard on lines
294-296 returns before the division is reached. -/
theorem computePressure_zero_denominator (adc_P t_fine P1 P2 P3 P4 P5 P6 P7 P8 P9 : Int)
    (h : pressVar1 t_fine P1 P2 P3 = 0) :
    computePressure adc_P t_fine P1 P2 P3 P4 P5 P6 P7 P8 P9 = some 0 := by
  unfold computePressure
  simp [h]

theorem computePressure_zero_denominator_witness :
    pressVar1 0 0 0 0 = 0 ∧ computePressure 0 0 0 0 0 0 0 0 0 0 0 = some 0 :=
  ⟨by decide, computePressure_zero_denominator 0 0 0 0 0 0 0 0 0 0 0 (by decide)⟩

/-- C3: the claim fails on the code.  Line 299 divides with Python true
division `/`, a floating-point operation on NumPy int64 scalars, not an exact
integer operation.  At the datasheet example (t_fine = 128422 from the C4
vector, adc_P = 415148, P1 = 36477, P2 = -10685, P3 = 3024, P4 = 2855,
P5 = 140, P6 = -7) the denominator is non-zero and does not divide the
numerator, so the quotient is not even mathematically an integer; the
`np.float64` result then makes line 300 (`self.P >> 13`) raise `TypeError`. -/
theorem pressDivision_not_integer :
    pressVar1 128422 36477 (-10685) 3024 = 597560748 ∧
    (pressNumerator 415148 128422 2855 140 (-7)) % (pressVar1 128422 36477 (-10685) 3024) =
      35552080 := by
  constructor
  · decide
  · decide

/-! ## Calibration decode (readTemp, lines 249-251)

The source indexes the byte list returned by the transport directly, with no
length validation: a buffer shorter than 6 bytes raises `IndexError` when an
out-of-range index is reached (no coefficient set escapes), while a longer
buffer is decoded from its first 6 bytes without any error.  Out-of-range
indexing is modelled with `List.getElem?` and `Option`. -/

/-- Temperature-calibration decode of `readTemp` lines 249-251:
`dig_T1 = np.uint16((buf[1] << 8) | buf[0])`,
`dig_T2 = np.int16((buf[3] << 8) | buf[2])`,
`dig_T3 = np.int16((buf[5] << 8) | buf[4])`; any out-of-range index raises. -/
def decodeTempCalib (buf : List Int) : Option (Int × Int × Int) :=
  match buf[0]?, buf[1]?, buf[2]?, buf[3]?, buf[4]?, buf[5]? with
  | some b0, some b1, some b2, some b3, some b4, some b5 =>
    some (u16 (pyOr (shl b1 8) b0), s16 (pyOr (shl b3 8) b2), s16 (pyOr (shl b5 8) b4))
  | _, _, _, _, _, _ => none

/-- C7 counterexample: a calibration buffer of the wrong length (7 bytes
instead of 6 for the temperature block) does not fail at all: the decode
succeeds, using the first 6 bytes and ignoring the rest. -/
theorem decodeTempCalib_wrong_length_succeeds :
    decodeTempCalib [1, 107, 0, 0, 0, 0, 99] = some (27393, 0, 0) := by
  decide

/-- C7 (amended): for every calibration byte buffer shorter than its register
block, the decode fails (out-of-range index, an `IndexError` in the source;
the code defines no dedicated MalformedCalibration error) and never produces
a partially decoded coefficient set. -/
theorem decodeTempCalib_short_fails (buf : List Int) (h : buf.length < 6) :
    decodeTempCalib buf = none := by
  have h5 : buf[5]? = none := List.getElem?_eq_none (by omega)
  unfold decodeTempCalib
  rw [h5]
  cases buf[0]? <;> cases buf[1]? <;> cases buf[2]? <;> cases buf[3]? <;> cases buf[4]? <;> rfl

theorem decodeTempCalib_short_fails_witness :
    decodeTempCalib [1, 2, 3, 4, 5] = none :=
  decodeTempCalib_short_fails [1, 2, 3, 4, 5] (by decide)

/-! ## The reading cycle (readout, lines 328-333)

`readout` calls `readTemp`, then `readPress`, then `readHum`, and returns
`[self.T, self.P, self.H]`.  The transport reads are modelled by an
environment of raw bytes (the block lengths are those of the fixed
`read_i2c_block_data` calls); the object fields written by the three methods
are modelled as explicit state.  `readPress` raises whenever the transformed
`var1` is non-zero (see `computePressure`), which aborts the cycle: `none`. -/

structure Env where
  tempBytes : Int × Int × Int
  pressBytes : Int × Int × Int
  humBytes : Int × Int
  digTempBytes : Fin 6 → Int
  digPressBytes : Fin 18 → Int
  digHum1Byte : Int
  digHum2Bytes : Fin 7 → Int

structure SensorState where
  t_fine : Int
  adc_T : Int
  adc_P : Int
  adc_H : Int
  T : Int
  P : Int
  H : Int

/-- Decoded temperature coefficients as used in `readTemp` (lines 249-251 and
the `np.int32` conversions of lines 259-261). -/
def digT1 (e : Env) : Int := w32 (u16 (pyOr (shl (e.digTempBytes 1) 8) (e.digTempBytes 0)))

def digT2 (e : Env) : Int := w32 (s16 (pyOr (shl (e.digTempBytes 3) 8) (e.digTempBytes 2)))

def digT3 (e : Env) : Int := w32 (s16 (pyOr (shl (e.digTempBytes 5) 8) (e.digTempBytes 4)))

/-- Decoded pressure coefficients (lines 273-281). -/
def digP1 (e : Env) : Int := u16 (pyOr (shl (e.digPressBytes 1) 8) (e.digPressBytes 0))

def digP2 (e : Env) : Int := s16 (pyOr (shl (e.digPressBytes 3) 8) (e.digPressBytes 2))

def digP3 (e : Env) : Int := s16 (pyOr (shl (e.digPressBytes 5) 8) (e.digPressBytes 4))

def digP4 (e : Env) : Int := s16 (pyOr (shl (e.digPressBytes 7) 8) (e.digPressBytes 6))

def digP5 (e : Env) : Int := s16 (pyOr (shl (e.digPressBytes 9) 8) (e.digPressBytes 8))

def digP6 (e : Env) : Int := s16 (pyOr (shl (e.digPressBytes 11) 8) (e.digPressBytes 10))

def digP7 (e : Env) : Int := s16 (pyOr (shl (e.digPressBytes 13) 8) (e.digPressBytes 12))

def digP8 (e : Env) : Int := s16 (pyOr (shl (e.digPressBytes 15) 8) (e.digPressBytes 14))

def digP9 (e : Env) : Int := s16 (pyOr (shl (e.digPressBytes 17) 8) (e.digPressBytes 16))

/-- Decoded humidity coefficients (lines 310-315), including the two packed
12-bit values H4 and H5 split across the shared byte `dig_regs_hum2[4]`. -/
def digH1 (e : Env) : Int := u8 e.digHum1Byte

def digH2 (e : Env) : Int := s16 (pyOr (shl (e.digHum2Bytes 1) 8) (e.digHum2Bytes 0))

def digH3 (e : Env) : Int := u8 (e.digHum2Bytes 2)

def digH4 (e : Env) : Int := s16 (pyOr (shl (e.digHum2Bytes 3) 4) (pyAnd (e.digHum2Bytes 4) 0b1111))

def digH5 (e : Env) : Int := s16 (pyOr (shl (e.digHum2Bytes 5) 4) (sar (e.digHum2Bytes 4) 4))

def digH6 (e : Env) : Int := s8 (e.digHum2Bytes 6)

def tempAdc (e : Env) : Int := rawValue20 e.tempBytes.1 e.tempBytes.2.1 e.tempBytes.2.2

def pressAdc (e : Env) : Int := rawValue20 e.pressBytes.1 e.pressBytes.2.1 e.pressBytes.2.2

def humAdc (e : Env) : Int := rawValue16 e.humBytes.1 e.humBytes.2

/-- Embeds `BME280.readTemp`: sets `adc_T`, then `T` and `t_fine` from the
compensation (lines 257, 264-267). -/
def readTempS (e : Env) (s : SensorState) : SensorState :=
  { s with
    adc_T := tempAdc e
    T := (computeTemperature (tempAdc e) (digT1 e) (digT2 e) (digT3 e)).1
    t_fine := (computeTemperature (tempAdc e) (digT1 e) (digT2 e) (digT3 e)).2 }

/-- Embeds `BME280.readPress`: sets `adc_P` and `P`, consuming the current
`self.t_fine` (line 288); raises (is `none`) when `var1` is non-zero. -/
def readPressS (e : Env) (s : SensorState) : Option SensorState :=
  (computePressure (pressAdc e) s.t_fine (digP1 e) (digP2 e) (digP3 e) (digP4 e)
    (digP5 e) (digP6 e) (digP7 e) (digP8 e) (digP9 e)).map
    fun p => { s with adc_P := pressAdc e, P := p }

/-- Embeds `BME280.readHum`: sets `adc_H` and `H`, consuming the current
`self.t_fine` (line 321). -/
def readHumS (e : Env) (s : SensorState) : SensorState :=
  { s with
    adc_H := humAdc e
    H := computeHumidity (humAdc e) s.t_fine (digH1 e) (digH2 e) (digH3 e) (digH4 e)
      (digH5 e) (digH6 e) }

/-- Embeds `BME280.readout` (lines 328-333): `readTemp`, then `readPress`,
then `readHum`, returning `[self.T, self.P, self.H]`; an exception in
`readPress` propagates (`none`). -/
def readout (e : Env) (s : SensorState) : Option (List Int) :=
  (readPressS e (readTempS e s)).map fun s2 =>
    let s3 := readHumS e s2
    [s3.T, s3.P, s3.H]

/-- Specification-side description of one reading cycle: the temperature
compensation runs first, and its fine value (`.2` of `computeTemperature`) —
not any previously stored one — is the value handed to both the pressure and
the humidity compensations. -/
def readoutFreshFine (e : Env) : Option (List Int) :=
  let r := computeTemperature (tempAdc e) (digT1 e) (digT2 e) (digT3 e)
  (computePressure (pressAdc e) r.2 (digP1 e) (digP2 e) (digP3 e) (digP4 e)
    (digP5 e) (digP6 e) (digP7 e) (digP8 e) (digP9 e)).map
    fun p => [r.1, p, computeHumidity (humAdc e) r.2 (digH1 e) (digH2 e) (digH3 e) (digH4 e)
      (digH5 e) (digH6 e)]

section ReadoutProof

attribute [local irreducible] computeTemperature computePressure computeHumidity
  tempAdc pressAdc humAdc digT1 digT2 digT3 digP1 digP2 digP3 digP4 digP5 digP6
  digP7 digP8 digP9 digH1 digH2 digH3 digH4 digH5 digH6

theorem readout_eq_readoutFreshFine (e : Env) (s : SensorState) :
    readout e s = readoutFreshFine e := by
  unfold readout readoutFreshFine readTempS readPressS readHumS
  dsimp only
  generalize computeTemperature (tempAdc e) (digT1 e) (digT2 e) (digT3 e) = r
  generalize computePressure (pressAdc e) r.2 (digP1 e) (digP2 e) (digP3 e) (digP4 e)
    (digP5 e) (digP6 e) (digP7 e) (digP8 e) (digP9 e) = c
  cases c <;> rfl

end ReadoutProof

/-- C8: in every reading cycle of `readout` the temperature computation runs
first, and the fine value consumed by the pressure and humidity computations
is exactly the one produced by this cycle's temperature computation: the
cycle's result equals `readoutFreshFine`, which hands `.2` of this cycle's
`computeTemperature` to both `computePressure` and `computeHumidity`, and the
result is independent of whatever (stale or uninitialised) `t_fine` the state
held before the cycle began. -/
theorem readout_temperature_first_fresh_fine (e : Env) (s sStale : SensorState) :
    readout e s = readoutFreshFine e ∧ readout e s = readout e sStale :=
  ⟨readout_eq_readoutFreshFine e s,
    (readout_eq_readoutFreshFine e s).trans (readout_eq_readoutFreshFine e sStale).symm⟩
